import Mathlib

/-!
Verification of the ownership-scoped data layer of the lifting-diary
application (`src/data/workouts.ts`, `src/db/schema.ts`,
`src/drizzle/0003_restructure_exercise_sets.sql`, and the `authClient`
helper of `lib/auth.ts` as quoted in `src/docs/data-fetching.md`).

The relational store is embedded as explicit lists of rows (`DB`); the
Drizzle query combinators (`eq`, `gte`, `lt`, `and`, `orderBy desc`,
`findFirst ... with`) are embedded as list filtering, `find?`, and a
sort by the date key.  Timestamps are modelled as integers (epoch
milliseconds); JavaScript string falsiness (`!userId`) is modelled
explicitly (`none` or the empty string count as "no identity").
-/

deriving instance DecidableEq for Except

namespace LiftingDiary

/-- A row of the `workouts` table (final schema, `src/db/schema.ts`):
id, user_id, name, description, date (timestamp), duration_minutes. -/
structure Workout where
  id : String
  userId : String
  name : String
  description : Option String
  date : Int
  durationMinutes : Option Int
  deriving Repr, DecidableEq

/-- A row of the `exercises` table (final schema): id, workout_id
(foreign key to `workouts.id`), name, description, `order`. -/
structure Exercise where
  id : String
  workoutId : String
  name : String
  description : Option String
  order : Int
  deriving Repr, DecidableEq

/-- A row of the `exercise_sets` table (final schema): id, exercise_id
(foreign key to `exercises.id`), `order`, reps, weight_kg, rest_time_seconds.
The `real` weight column is modelled as a rational number. -/
structure ExerciseSet where
  id : String
  exerciseId : String
  order : Int
  reps : Int
  weightKg : Rat
  restTimeSeconds : Int
  deriving Repr, DecidableEq

/-- The state of the relational store: the three tables, each a list of
rows in storage order. -/
structure DB where
  workouts : List Workout
  exercises : List Exercise
  sets : List ExerciseSet
  deriving Repr, DecidableEq

/-- Primary-key well-formedness of the store: `workouts.id` is unique.
This is what the `uuid` primary key of the schema guarantees. -/
def DB.WorkoutIdsNodup (db : DB) : Prop :=
  (db.workouts.map (fun w => w.id)).Nodup

instance (db : DB) : Decidable db.WorkoutIdsNodup := by
  unfold DB.WorkoutIdsNodup
  infer_instance

/-- The error taxonomy raised by the data layer: `UnauthorizedError` and
`ForbiddenError` from `lib/auth.ts`, plus the validation and storage
failures of the mutation contract. -/
inductive DataError where
  | Unauthorized
  | Forbidden
  | ValidationFailed (field : String)
  | StorageFailure
  deriving Repr, DecidableEq

/-- The ambient Clerk session: `auth()` yields `{ userId: string | null }`,
modelled as `Option String`. -/
abbrev Session : Type := Option String

/-- Modelled from the spec: the Identity Gate helper `authClient` of
`lib/auth.ts` is not under `src/`; its body is quoted verbatim in
`src/docs/data-fetching.md` (lines 783-791).  It reads `userId` from the
validated session and throws `UnauthorizedError` when `!userId` — in
JavaScript this is true for `null` and for the empty string — and
otherwise returns `{ userId }`. -/
def authClient (session : Session) : Except DataError String :=
  match session with
  | none => .error .Unauthorized
  | some userId => if userId = "" then .error .Unauthorized else .ok userId

/-- A session carries no identity when `userId` is null or empty — exactly
the JavaScript-falsy cases of `!userId`. -/
def NoIdentity (session : Session) : Prop :=
  session = none ∨ session = some ""

instance (session : Session) : Decidable (NoIdentity session) := by
  unfold NoIdentity
  exact inferInstanceAs (Decidable (_ ∨ _))

/-- The optional date filter of `getWorkouts` (`getWorkoutsParams.filter`):
both bounds optional. -/
structure DateFilter where
  startDate : Option Int
  endDate : Option Int
  deriving Repr, DecidableEq

/-- `filter?.startDate`: optional chaining through the optional filter. -/
def filterStart (filter : Option DateFilter) : Option Int :=
  match filter with
  | none => none
  | some f => f.startDate

/-- `filter?.endDate`: optional chaining through the optional filter. -/
def filterEnd (filter : Option DateFilter) : Option Int :=
  match filter with
  | none => none
  | some f => f.endDate

/-- The conditions array built by `getWorkouts`: it starts from
`[eq(workouts.userId, userId)]` and the if/else-if chain pushes
`gte(workouts.date, startDate)` and/or `lt(workouts.date, endDate)`
according to which bounds are present. -/
def getWorkoutsConditions (userId : String) (filter : Option DateFilter) :
    List (Workout → Bool) :=
  let conditions : List (Workout → Bool) := [fun w => w.userId == userId]
  match filterStart filter, filterEnd filter with
  | some s, some e =>
      conditions ++
        [fun w : Workout => decide (s ≤ w.date), fun w : Workout => decide (w.date < e)]
  | some s, none => conditions ++ [fun w : Workout => decide (s ≤ w.date)]
  | none, some e => conditions ++ [fun w : Workout => decide (w.date < e)]
  | none, none => conditions

/-- `and(...conditions)`: a row matches when every condition holds. -/
def workoutMatches (userId : String) (filter : Option DateFilter)
    (w : Workout) : Bool :=
  (getWorkoutsConditions userId filter).all (fun c => c w)

/-- `orderBy(desc(workouts.date))`: the descending-date order relation. -/
def dateDesc (a b : Workout) : Prop := b.date ≤ a.date

instance : DecidableRel dateDesc := fun a b =>
  inferInstanceAs (Decidable (b.date ≤ a.date))

instance : IsTotal Workout dateDesc :=
  ⟨fun a b => le_total b.date a.date⟩

instance : IsTrans Workout dateDesc :=
  ⟨fun _ _ _ h1 h2 => le_trans h2 h1⟩

/-- The row set produced by the `getWorkouts` query: select rows matching
all conditions, ordered by descending date.  No limit or offset is applied. -/
def getWorkoutsResult (userId : String) (filter : Option DateFilter)
    (db : DB) : List Workout :=
  List.insertionSort dateDesc (db.workouts.filter (workoutMatches userId filter))

/-- `getWorkouts` as observed at the store boundary: the first component
records whether a query was issued to the store at all; the second is the
returned value.  The helper first awaits `authClient()` (propagating its
error without touching the store) and then runs the filtered, ordered
select. -/
def getWorkoutsCall (session : Session) (filter : Option DateFilter)
    (db : DB) : Bool × Except DataError (List Workout) :=
  match authClient session with
  | .error e => (false, .error e)
  | .ok userId => (true, .ok (getWorkoutsResult userId filter db))

/-- `getWorkouts({filter})` from `src/data/workouts.ts`. -/
def getWorkouts (session : Session) (filter : Option DateFilter)
    (db : DB) : Except DataError (List Workout) :=
  (getWorkoutsCall session filter db).snd

/-- One element of the nested `exercises: { with: { sets: true } }`
result: an exercise row with its set rows. -/
structure ExerciseWithSets where
  exercise : Exercise
  sets : List ExerciseSet
  deriving Repr, DecidableEq

/-- The nested record returned by
`db.query.workouts.findFirst({ where: eq(workouts.id, workoutId), with: ... })`:
the workout row together with its exercises, each with its sets. -/
structure WorkoutWithExercisesAndSets where
  workout : Workout
  exercises : List ExerciseWithSets
  deriving Repr, DecidableEq

/-- The store read performed by `getWorkoutWithExercisesAndSets`: find the
first workout row whose id matches — the `where` clause mentions only the
workout id, never an identity — and join in its exercises and their sets
in storage order (the relational query applies no `orderBy` to either
nesting level). -/
def fetchWorkoutWithExercisesAndSets (workoutId : String) (db : DB) :
    Option WorkoutWithExercisesAndSets :=
  (db.workouts.find? (fun w => w.id == workoutId)).map (fun w =>
    { workout := w
      exercises :=
        (db.exercises.filter (fun e => e.workoutId == w.id)).map (fun e =>
          { exercise := e
            sets := db.sets.filter (fun s => s.exerciseId == e.id) }) })

/-- One call to `getWorkoutWithExercisesAndSets`, observed at the store
boundary: `fetched` is what the store returned (`none` when no query was
issued), `result` is the value returned or error thrown to the caller. -/
structure DetailCall where
  fetched : Option (Option WorkoutWithExercisesAndSets)
  result : Except DataError (Option WorkoutWithExercisesAndSets)
  deriving Repr

/-- `getWorkoutWithExercisesAndSets(workoutId)` from `src/data/workouts.ts`,
with the store read made explicit.  After `authClient()`, the row is
fetched by id alone; then `if (workout && workout.userId !== userId) throw
new ForbiddenError()`; otherwise the fetched value (possibly `undefined`,
i.e. `none`) is returned. -/
def getWorkoutWithExercisesAndSetsCall (session : Session)
    (workoutId : String) (db : DB) : DetailCall :=
  match authClient session with
  | .error e => { fetched := none, result := .error e }
  | .ok userId =>
      let fetched := fetchWorkoutWithExercisesAndSets workoutId db
      match fetched with
      | some w =>
          if w.workout.userId ≠ userId then
            { fetched := some fetched, result := .error .Forbidden }
          else
            { fetched := some fetched, result := .ok fetched }
      | none => { fetched := some fetched, result := .ok none }

/-- The caller-visible behaviour of `getWorkoutWithExercisesAndSets`. -/
def getWorkoutWithExercisesAndSets (session : Session) (workoutId : String)
    (db : DB) : Except DataError (Option WorkoutWithExercisesAndSets) :=
  (getWorkoutWithExercisesAndSetsCall session workoutId db).result

/-- The referential action a foreign key declares for deletion of the
referenced row.  Drizzle's `.references(() => ...)` without an `onDelete`
option, and the migration's `ON DELETE no action`, are `noAction`;
`onDelete: "cascade"` / `ON DELETE cascade` is `cascade`. -/
inductive FKAction where
  | noAction
  | cascade
  deriving Repr, DecidableEq

/-- A foreign-key declaration of the storage schema. -/
structure ForeignKey where
  table : String
  column : String
  refTable : String
  onDelete : FKAction
  deriving Repr, DecidableEq

/-- The Exercise→Workout foreign key of the final schema:
`exercises.workout_id` `.references(() => workouts.id)` with no `onDelete`
option (`src/db/schema.ts` lines 65-73), created by the migration as
`exercises_workout_id_workouts_id_fk ... ON DELETE no action`
(`src/drizzle/0003_restructure_exercise_sets.sql` line 63). -/
def exercisesWorkoutIdFk : ForeignKey :=
  { table := "exercises", column := "workout_id", refTable := "workouts"
    onDelete := .noAction }

/-- The Set→Exercise foreign key of the final schema:
`exercise_sets.exercise_id` `.references(() => exercises.id)` with no
`onDelete` option (`src/db/schema.ts` lines 75-84), recreated by the
migration as `exercise_sets_exercise_id_exercises_id_fk ... ON DELETE no
action` (`src/drizzle/0003_restructure_exercise_sets.sql` line 62). -/
def exerciseSetsExerciseIdFk : ForeignKey :=
  { table := "exercise_sets", column := "exercise_id", refTable := "exercises"
    onDelete := .noAction }

/-- Outcome of a storage-level `DELETE FROM workouts WHERE id = ?`. -/
inductive DeleteOutcome where
  | ok (db : DB)
  | fkViolation
  deriving Repr, DecidableEq

/-- Storage-level semantics of deleting a workout row, driven by the
declared referential actions: under `cascade` the referencing exercises
(and, per the set-level action, their sets) are removed with the workout;
under `no action` the delete is rejected whenever a referencing exercise
row exists. -/
def storageDeleteWorkout (db : DB) (workoutId : String) : DeleteOutcome :=
  match exercisesWorkoutIdFk.onDelete with
  | .cascade =>
      let doomed := db.exercises.filter (fun e => e.workoutId == workoutId)
      match exerciseSetsExerciseIdFk.onDelete with
      | .cascade =>
          .ok { workouts := db.workouts.filter (fun w => !(w.id == workoutId))
                exercises := db.exercises.filter (fun e => !(e.workoutId == workoutId))
                sets := db.sets.filter (fun s =>
                  !(doomed.any (fun e => e.id == s.exerciseId))) }
      | .noAction =>
          if db.sets.any (fun s => doomed.any (fun e => e.id == s.exerciseId)) then
            .fkViolation
          else
            .ok { workouts := db.workouts.filter (fun w => !(w.id == workoutId))
                  exercises := db.exercises.filter (fun e => !(e.workoutId == workoutId))
                  sets := db.sets }
  | .noAction =>
      if db.exercises.any (fun e => e.workoutId == workoutId) then
        .fkViolation
      else
        .ok { workouts := db.workouts.filter (fun w => !(w.id == workoutId))
              exercises := db.exercises
              sets := db.sets }

/-- The input of `createWorkout` per the data-model contract: name,
optional description, date, optional duration in minutes. -/
structure CreateWorkoutInput where
  name : String
  description : Option String
  date : Int
  durationMinutes : Option Int
  deriving Repr, DecidableEq

/-- Modelled from the spec: no `createWorkout` helper exists under `src/`
(`src/docs/data-mutation.md` only shows the pattern it must follow).  Per
§4.2 of the contract it resolves the identity, validates `name` non-empty
and `durationMinutes` positive when present — failing with
`ValidationFailed` naming the offending field, without touching the store
— and otherwise inserts a new workout owned by the caller and returns the
created record.  The pair returned here is (store after the call, result). -/
def createWorkout (session : Session) (input : CreateWorkoutInput)
    (newId : String) (db : DB) : DB × Except DataError Workout :=
  match authClient session with
  | .error e => (db, .error e)
  | .ok userId =>
      if input.name = "" then
        (db, .error (.ValidationFailed "name"))
      else
        match input.durationMinutes with
        | some d =>
            if d ≤ 0 then
              (db, .error (.ValidationFailed "durationMinutes"))
            else
              let w : Workout :=
                { id := newId, userId := userId, name := input.name
                  description := input.description, date := input.date
                  durationMinutes := input.durationMinutes }
              ({ db with workouts := db.workouts ++ [w] }, .ok w)
        | none =>
            let w : Workout :=
              { id := newId, userId := userId, name := input.name
                description := input.description, date := input.date
                durationMinutes := input.durationMinutes }
            ({ db with workouts := db.workouts ++ [w] }, .ok w)

/-- The nested record `fetchWorkoutWithExercisesAndSets` builds for a
given workout row: its exercises in storage order, each with its sets in
storage order. -/
def detailOf (db : DB) (w : Workout) : WorkoutWithExercisesAndSets :=
  { workout := w
    exercises :=
      (db.exercises.filter (fun e => e.workoutId == w.id)).map (fun e =>
        { exercise := e
          sets := db.sets.filter (fun s => s.exerciseId == e.id) }) }

/- Sample rows used by the concrete witnesses below.  The two exercises of
workout `w1` are stored with `order` values 1 then 0, i.e. not in ascending
`order`. -/

def aliceWorkout : Workout :=
  { id := "w1", userId := "alice", name := "Leg Day", description := none
    date := 10, durationMinutes := none }

def bobWorkout : Workout :=
  { id := "w2", userId := "bob", name := "Push Day", description := none
    date := 20, durationMinutes := some 60 }

def squat : Exercise :=
  { id := "e1", workoutId := "w1", name := "Squat", description := none
    order := 1 }

def lunge : Exercise :=
  { id := "e2", workoutId := "w1", name := "Lunge", description := none
    order := 0 }

def squatSet : ExerciseSet :=
  { id := "s1", exerciseId := "e1", order := 0, reps := 5, weightKg := 100
    restTimeSeconds := 120 }

def sampleDB : DB :=
  { workouts := [aliceWorkout, bobWorkout]
    exercises := [squat, lunge]
    sets := [squatSet] }

/-! ### Helper lemmas about the embedded queries -/

theorem authClient_ok {u : String} (hu : u ≠ "") :
    authClient (some u) = .ok u := by
  simp [authClient, hu]

theorem authClient_error_iff {s : Session} :
    authClient s = .error .Unauthorized ↔ NoIdentity s := by
  cases s with
  | none => simp [authClient, NoIdentity]
  | some u =>
      by_cases hu : u = "" <;> simp [authClient, NoIdentity, hu]

theorem getWorkouts_ok {u : String} (hu : u ≠ "") (f : Option DateFilter)
    (db : DB) :
    getWorkouts (some u) f db = .ok (getWorkoutsResult u f db) := by
  simp [getWorkouts, getWorkoutsCall, authClient_ok hu]

theorem mem_getWorkoutsResult {u : String} {f : Option DateFilter} {db : DB}
    {w : Workout} :
    w ∈ getWorkoutsResult u f db ↔
      w ∈ db.workouts ∧ workoutMatches u f w = true := by
  unfold getWorkoutsResult
  rw [List.mem_insertionSort, List.mem_filter]

theorem workoutMatches_userId {u : String} {f : Option DateFilter}
    {w : Workout} (h : workoutMatches u f w = true) : w.userId = u := by
  unfold workoutMatches getWorkoutsConditions at h
  rcases hs : filterStart f with _ | s <;> rcases he : filterEnd f with _ | e <;>
    simp [hs, he] at h <;> first
      | exact h
      | exact h.1

theorem workoutMatches_none_none {u : String} {f : Option DateFilter}
    {w : Workout} (hs : filterStart f = none) (he : filterEnd f = none) :
    workoutMatches u f w = true ↔ w.userId = u := by
  unfold workoutMatches getWorkoutsConditions
  simp [hs, he]

theorem workoutMatches_start_only {u : String} {f : Option DateFilter}
    {w : Workout} {s : Int} (hs : filterStart f = some s)
    (he : filterEnd f = none) :
    workoutMatches u f w = true ↔ w.userId = u ∧ s ≤ w.date := by
  unfold workoutMatches getWorkoutsConditions
  simp [hs, he]

theorem workoutMatches_end_only {u : String} {f : Option DateFilter}
    {w : Workout} {e : Int} (hs : filterStart f = none)
    (he : filterEnd f = some e) :
    workoutMatches u f w = true ↔ w.userId = u ∧ w.date < e := by
  unfold workoutMatches getWorkoutsConditions
  simp [hs, he]

theorem workoutMatches_both {u : String} {f : Option DateFilter}
    {w : Workout} {s e : Int} (hs : filterStart f = some s)
    (he : filterEnd f = some e) :
    workoutMatches u f w = true ↔ w.userId = u ∧ s ≤ w.date ∧ w.date < e := by
  unfold workoutMatches getWorkoutsConditions
  simp [hs, he, and_assoc]

theorem find?_eq_some_of_nodup {db : DB} {W : Workout}
    (hnd : db.WorkoutIdsNodup) (hW : W ∈ db.workouts) :
    db.workouts.find? (fun w => w.id == W.id) = some W := by
  cases h : db.workouts.find? (fun w => w.id == W.id) with
  | none =>
      exact absurd (by simp : (fun w : Workout => w.id == W.id) W = true)
        (List.find?_eq_none.mp h W hW)
  | some x =>
      have hmem : x ∈ db.workouts := List.mem_of_find?_eq_some h
      have hid : x.id = W.id := by
        have := List.find?_some h
        simpa using this
      rw [List.inj_on_of_nodup_map hnd hmem hW hid]

theorem fetch_eq_of_mem {db : DB} {W : Workout}
    (hnd : db.WorkoutIdsNodup) (hW : W ∈ db.workouts) :
    fetchWorkoutWithExercisesAndSets W.id db = some (detailOf db W) := by
  unfold fetchWorkoutWithExercisesAndSets detailOf
  rw [find?_eq_some_of_nodup hnd hW]
  rfl

theorem fetch_eq_none_iff {db : DB} {wid : String} :
    fetchWorkoutWithExercisesAndSets wid db = none ↔
      ∀ w ∈ db.workouts, w.id ≠ wid := by
  unfold fetchWorkoutWithExercisesAndSets
  rw [Option.map_eq_none', List.find?_eq_none]
  constructor
  · intro h w hw
    simpa using h w hw
  · intro h w hw
    simpa using h w hw

theorem workoutMatches_none_eq (u : String) (w : Workout) :
    workoutMatches u none w = (w.userId == u) := by
  simp [workoutMatches, getWorkoutsConditions, filterStart, filterEnd]

theorem call_fetched {u : String} (wid : String) (db : DB) (hu : u ≠ "") :
    (getWorkoutWithExercisesAndSetsCall (some u) wid db).fetched =
      some (fetchWorkoutWithExercisesAndSets wid db) := by
  simp only [getWorkoutWithExercisesAndSetsCall, authClient_ok hu]
  cases h : fetchWorkoutWithExercisesAndSets wid db with
  | none => simp [h]
  | some w => by_cases hw : w.workout.userId ≠ u <;> simp [h, hw]

theorem call_forbidden {u : String} {db : DB} {W : Workout} (hu : u ≠ "")
    (hnd : db.WorkoutIdsNodup) (hW : W ∈ db.workouts) (hown : W.userId ≠ u) :
    getWorkoutWithExercisesAndSetsCall (some u) W.id db =
      { fetched := some (some (detailOf db W)), result := .error .Forbidden } := by
  have hfetch := fetch_eq_of_mem hnd hW
  have hcond : (detailOf db W).workout.userId ≠ u := hown
  simp [getWorkoutWithExercisesAndSetsCall, authClient_ok hu, hfetch, hcond]

theorem call_owner_ok {u : String} {db : DB} {W : Workout} (hu : u ≠ "")
    (hnd : db.WorkoutIdsNodup) (hW : W ∈ db.workouts) (hown : W.userId = u) :
    getWorkoutWithExercisesAndSetsCall (some u) W.id db =
      { fetched := some (some (detailOf db W)), result := .ok (some (detailOf db W)) } := by
  have hfetch := fetch_eq_of_mem hnd hW
  have hcond : ¬ (detailOf db W).workout.userId ≠ u := by
    simpa [detailOf] using hown
  simp [getWorkoutWithExercisesAndSetsCall, authClient_ok hu, hfetch, hcond]

theorem call_not_found {u : String} {db : DB} {wid : String} (hu : u ≠ "")
    (habs : ∀ w ∈ db.workouts, w.id ≠ wid) :
    getWorkoutWithExercisesAndSetsCall (some u) wid db =
      { fetched := some none, result := .ok none } := by
  have hfetch : fetchWorkoutWithExercisesAndSets wid db = none :=
    fetch_eq_none_iff.mpr habs
  simp [getWorkoutWithExercisesAndSetsCall, authClient_ok hu, hfetch]

/-! ### Claim theorems -/

/-- C1: Ownership isolation.  For identities A ≠ B and a workout W owned
by A, `getWorkouts` on behalf of B returns only rows owned by B and never
W (the ownership predicate is part of every query), and
`getWorkoutWithExercisesAndSets` on behalf of B at W's id fails with
`Forbidden`. -/
theorem ownership_isolation (A B : String) (f : Option DateFilter) (db : DB)
    (W : Workout) (hAB : A ≠ B) (hB : B ≠ "") (hnd : db.WorkoutIdsNodup)
    (hW : W ∈ db.workouts) (hWA : W.userId = A) :
    getWorkouts (some B) f db = .ok (getWorkoutsResult B f db) ∧
    (∀ x ∈ getWorkoutsResult B f db, x.userId = B) ∧
    W ∉ getWorkoutsResult B f db ∧
    getWorkoutWithExercisesAndSets (some B) W.id db = .error .Forbidden := by
  refine ⟨getWorkouts_ok hB f db, ?_, ?_, ?_⟩
  · intro x hx
    exact workoutMatches_userId (mem_getWorkoutsResult.mp hx).2
  · intro hmem
    have hWB : W.userId = B :=
      workoutMatches_userId (mem_getWorkoutsResult.mp hmem).2
    exact hAB (hWA.symm.trans hWB)
  · have hown : W.userId ≠ B := by rw [hWA]; exact hAB
    unfold getWorkoutWithExercisesAndSets
    rw [call_forbidden hB hnd hW hown]

/-- C1 witness at concrete data: Bob's list never contains Alice's
workout, and Bob's detail read of it is `Forbidden`. -/
theorem ownership_isolation_witness :
    aliceWorkout ∉ getWorkoutsResult "bob" none sampleDB ∧
    getWorkoutWithExercisesAndSets (some "bob") aliceWorkout.id sampleDB =
      .error .Forbidden :=
  ⟨(ownership_isolation "alice" "bob" none sampleDB aliceWorkout
      (by decide) (by decide) (by decide) (by decide) (by decide)).2.2.1,
   (ownership_isolation "alice" "bob" none sampleDB aliceWorkout
      (by decide) (by decide) (by decide) (by decide) (by decide)).2.2.2⟩

/-- C3: NotFound/Forbidden distinction.  The detail read yields `ok none`
("not found") exactly when no workout with the id exists, fails with
`Forbidden` exactly when the workout exists but is owned by someone else,
and the two outcomes are distinct values. -/
theorem notFound_forbidden_distinction (u wid : String) (db : DB)
    (hu : u ≠ "") (hnd : db.WorkoutIdsNodup) :
    (getWorkoutWithExercisesAndSets (some u) wid db = .ok none ↔
      ∀ w ∈ db.workouts, w.id ≠ wid) ∧
    (getWorkoutWithExercisesAndSets (some u) wid db = .error .Forbidden ↔
      ∃ w ∈ db.workouts, w.id = wid ∧ w.userId ≠ u) ∧
    (Except.ok (none : Option WorkoutWithExercisesAndSets) ≠
      (Except.error .Forbidden : Except DataError (Option WorkoutWithExercisesAndSets))) := by
  by_cases hex : ∃ w ∈ db.workouts, w.id = wid
  · obtain ⟨W, hW, hid⟩ := hex
    subst hid
    by_cases hown : W.userId = u
    · unfold getWorkoutWithExercisesAndSets
      rw [call_owner_ok hu hnd hW hown]
      refine ⟨?_, ?_, by simp⟩
      · constructor
        · intro h
          simp at h
        · intro h
          exact absurd rfl (h W hW)
      · constructor
        · intro h
          simp at h
        · rintro ⟨w, hw, hwid, hne⟩
          have heq : w = W := List.inj_on_of_nodup_map hnd hw hW hwid
          exact absurd (heq ▸ hne) (by simp [hown])
    · unfold getWorkoutWithExercisesAndSets
      rw [call_forbidden hu hnd hW hown]
      refine ⟨?_, ?_, by simp⟩
      · constructor
        · intro h
          simp at h
        · intro h
          exact absurd rfl (h W hW)
      · exact ⟨fun _ => ⟨W, hW, rfl, hown⟩, fun _ => rfl⟩
  · push_neg at hex
    unfold getWorkoutWithExercisesAndSets
    rw [call_not_found hu hex]
    refine ⟨⟨fun _ => hex, fun _ => rfl⟩, ?_, by simp⟩
    constructor
    · intro h
      simp at h
    · rintro ⟨w, hw, hwid, _⟩
      exact absurd hwid (hex w hw)

/-- C3 witness at concrete data: an absent id reads as `ok none`, Bob's
read of Alice's workout is `Forbidden`, and the two are distinct. -/
theorem notFound_forbidden_distinction_witness :
    getWorkoutWithExercisesAndSets (some "alice") "zzz" sampleDB = .ok none ∧
    getWorkoutWithExercisesAndSets (some "bob") "w1" sampleDB =
      .error .Forbidden :=
  ⟨(notFound_forbidden_distinction "alice" "zzz" sampleDB (by decide)
      (by decide)).1.mpr (by decide),
   (notFound_forbidden_distinction "bob" "w1" sampleDB (by decide)
      (by decide)).2.1.mpr ⟨aliceWorkout, by decide, rfl, by decide⟩⟩

/-- C4 counterexample: the detail query applies no `orderBy`.  On a store
whose exercises for `w1` carry `order` values 1 then 0 in storage order,
the owner's detail read returns them in exactly that order, which is not
ascending by `order`. -/
theorem detail_ordering_counterexample :
    getWorkoutWithExercisesAndSets (some "alice") "w1" sampleDB =
      .ok (some (detailOf sampleDB aliceWorkout)) ∧
    (detailOf sampleDB aliceWorkout).exercises.map (fun x => x.exercise.order) =
      [1, 0] ∧
    ¬ List.Sorted (fun a b : Int => a ≤ b)
      ((detailOf sampleDB aliceWorkout).exercises.map (fun x => x.exercise.order)) := by
  refine ⟨by decide, by decide, ?_⟩
  intro h
  have h10 : (1 : Int) ≤ 0 := by
    have := h
    rw [show (detailOf sampleDB aliceWorkout).exercises.map
        (fun x => x.exercise.order) = [1, 0] from by decide] at this
    exact List.rel_of_sorted_cons this 0 (by simp)
  omega

/-- C4 amended: the detail read applies no ordering at all — for a workout
the caller owns it returns the exercises exactly as filtered from the
store (storage order, a sublist of the `exercises` table) and each
exercise's sets exactly as filtered from the store (storage order). -/
theorem detail_store_order (u : String) (db : DB) (W : Workout) (hu : u ≠ "")
    (hnd : db.WorkoutIdsNodup) (hW : W ∈ db.workouts) (hWu : W.userId = u) :
    getWorkoutWithExercisesAndSets (some u) W.id db = .ok (some (detailOf db W)) ∧
    (detailOf db W).exercises.map (fun x => x.exercise) =
      db.exercises.filter (fun e => e.workoutId == W.id) ∧
    ((detailOf db W).exercises.map (fun x => x.exercise)).Sublist db.exercises ∧
    ∀ x ∈ (detailOf db W).exercises,
      x.sets = db.sets.filter (fun s => s.exerciseId == x.exercise.id) ∧
      x.sets.Sublist db.sets := by
  have hmap : (detailOf db W).exercises.map (fun x => x.exercise) =
      db.exercises.filter (fun e => e.workoutId == W.id) := by
    unfold detailOf
    rw [List.map_map]
    have hcomp : ((fun x : ExerciseWithSets => x.exercise) ∘ fun e : Exercise =>
        ({ exercise := e
           sets := db.sets.filter (fun s => s.exerciseId == e.id) } :
          ExerciseWithSets)) = fun e => e := rfl
    rw [hcomp]
    exact List.map_id' _
  refine ⟨?_, hmap, ?_, ?_⟩
  · unfold getWorkoutWithExercisesAndSets
    rw [call_owner_ok hu hnd hW hWu]
  · rw [hmap]
    exact List.filter_sublist _
  · intro x hx
    unfold detailOf at hx
    simp only [List.mem_map] at hx
    obtain ⟨e, _, rfl⟩ := hx
    exact ⟨rfl, List.filter_sublist _⟩

/-- C4 amended witness at concrete data: Alice's detail read returns the
two exercises in storage order with their sets as stored. -/
theorem detail_store_order_witness :
    getWorkoutWithExercisesAndSets (some "alice") aliceWorkout.id sampleDB =
      .ok (some (detailOf sampleDB aliceWorkout)) ∧
    (detailOf sampleDB aliceWorkout).exercises.map (fun x => x.exercise) =
      sampleDB.exercises.filter (fun e => e.workoutId == aliceWorkout.id) :=
  ⟨(detail_store_order "alice" sampleDB aliceWorkout (by decide) (by decide)
      (by decide) (by decide)).1,
   (detail_store_order "alice" sampleDB aliceWorkout (by decide) (by decide)
      (by decide) (by decide)).2.1⟩

/-- C5: Half-open date-range filter.  With both bounds supplied, a row
owned by the caller dated exactly `startDate` is included and a row dated
exactly `endDate` is excluded. -/
theorem date_range_half_open (u : String) (s e : Int) (db : DB)
    (W We : Workout) (hu : u ≠ "") (hse : s < e) (hW : W ∈ db.workouts)
    (hWu : W.userId = u) (hWs : W.date = s) (hWe : We.date = e) :
    getWorkouts (some u) (some ⟨some s, some e⟩) db =
      .ok (getWorkoutsResult u (some ⟨some s, some e⟩) db) ∧
    W ∈ getWorkoutsResult u (some ⟨some s, some e⟩) db ∧
    We ∉ getWorkoutsResult u (some ⟨some s, some e⟩) db := by
  refine ⟨getWorkouts_ok hu _ db, ?_, ?_⟩
  · exact mem_getWorkoutsResult.mpr
      ⟨hW, (workoutMatches_both (f := some ⟨some s, some e⟩) rfl rfl).mpr
        ⟨hWu, le_of_eq hWs.symm, by rw [hWs]; exact hse⟩⟩
  · intro hmem
    have h := ((workoutMatches_both (f := some ⟨some s, some e⟩) rfl rfl).mp
      (mem_getWorkoutsResult.mp hmem).2).2.2
    rw [hWe] at h
    exact lt_irrefl e h

/-- C5 witness at concrete data: with range [10, 20), Alice's workout
dated 10 is listed and Bob's workout dated 20 is not. -/
theorem date_range_half_open_witness :
    aliceWorkout ∈ getWorkoutsResult "alice" (some ⟨some 10, some 20⟩) sampleDB ∧
    bobWorkout ∉ getWorkoutsResult "alice" (some ⟨some 10, some 20⟩) sampleDB :=
  ⟨(date_range_half_open "alice" 10 20 sampleDB aliceWorkout bobWorkout
      (by decide) (by decide) (by decide) (by decide) (by decide) (by decide)).2.1,
   (date_range_half_open "alice" 10 20 sampleDB aliceWorkout bobWorkout
      (by decide) (by decide) (by decide) (by decide) (by decide) (by decide)).2.2⟩

/-- C6: List ordering and no pagination.  `getWorkouts` returns its rows
sorted descending by date, and with no filter the result is a permutation
of all of the caller's rows — nothing is truncated. -/
theorem list_ordering_no_pagination (u : String) (f : Option DateFilter)
    (db : DB) (hu : u ≠ "") :
    getWorkouts (some u) f db = .ok (getWorkoutsResult u f db) ∧
    List.Sorted dateDesc (getWorkoutsResult u f db) ∧
    (getWorkoutsResult u none db).Perm
      (db.workouts.filter (fun w => w.userId == u)) := by
  refine ⟨getWorkouts_ok hu f db, List.sorted_insertionSort dateDesc _, ?_⟩
  have hflt : db.workouts.filter (workoutMatches u none) =
      db.workouts.filter (fun w => w.userId == u) :=
    List.filter_congr (fun w _ => workoutMatches_none_eq u w)
  unfold getWorkoutsResult
  rw [hflt]
  exact List.perm_insertionSort dateDesc _

/-- C6 witness at concrete data. -/
theorem list_ordering_no_pagination_witness :
    getWorkouts (some "alice") none sampleDB =
      .ok (getWorkoutsResult "alice" none sampleDB) ∧
    List.Sorted dateDesc (getWorkoutsResult "alice" none sampleDB) ∧
    (getWorkoutsResult "alice" none sampleDB).Perm
      (sampleDB.workouts.filter (fun w => w.userId == "alice")) :=
  list_ordering_no_pagination "alice" none sampleDB (by decide)

/-- C2 counterexample: the final schema does not declare cascade-delete.
Both foreign keys carry `ON DELETE no action`
(`src/drizzle/0003_restructure_exercise_sets.sql` lines 62-63), so deleting
the workout `w1`, which still has exercises, is rejected with a
foreign-key violation rather than cascading. -/
theorem cascade_fk_counterexample :
    exercisesWorkoutIdFk.onDelete = .noAction ∧
    exerciseSetsExerciseIdFk.onDelete = .noAction ∧
    FKAction.noAction ≠ FKAction.cascade ∧
    storageDeleteWorkout sampleDB "w1" = .fkViolation := by
  decide

/-- C2 amended: the final schema declares the Exercise→Workout and
Set→Exercise foreign keys with `ON DELETE no action`, so deleting a
Workout that still has Exercises is rejected by the store with a
foreign-key violation instead of cascading; no orphan rows are produced,
but no cascade delete is provided either. -/
theorem no_cascade_delete (db : DB) (wid : String) (E : Exercise)
    (hE : E ∈ db.exercises) (hEw : E.workoutId = wid) :
    exercisesWorkoutIdFk.onDelete = .noAction ∧
    exerciseSetsExerciseIdFk.onDelete = .noAction ∧
    storageDeleteWorkout db wid = .fkViolation := by
  refine ⟨rfl, rfl, ?_⟩
  have hany : db.exercises.any (fun e => e.workoutId == wid) = true := by
    rw [List.any_eq_true]
    exact ⟨E, hE, by simp [hEw]⟩
  simp [storageDeleteWorkout, exercisesWorkoutIdFk, hany]

/-- C2 amended witness at concrete data: deleting `w1` with `squat` still
referencing it is a foreign-key violation. -/
theorem no_cascade_delete_witness :
    exercisesWorkoutIdFk.onDelete = .noAction ∧
    exerciseSetsExerciseIdFk.onDelete = .noAction ∧
    storageDeleteWorkout sampleDB "w1" = .fkViolation :=
  no_cascade_delete sampleDB "w1" squat (by decide) (by decide)

/-- C7: the Identity Gate fails closed.  `authClient` fails with
`Unauthorized` exactly when the validated session carries no identity,
`Unauthorized` is the only error it ever raises, on success it returns the
caller's identity, and a no-identity session makes both data helpers
propagate `Unauthorized` without issuing any store query. -/
theorem identity_gate_fails_closed (s : Session) (u : String)
    (f : Option DateFilter) (wid : String) (db : DB) :
    (authClient s = .error .Unauthorized ↔ NoIdentity s) ∧
    (∀ e : DataError, authClient s = .error e → e = .Unauthorized) ∧
    (s = some u → u ≠ "" → authClient s = .ok u) ∧
    (NoIdentity s →
      getWorkoutsCall s f db = (false, .error .Unauthorized) ∧
      (getWorkoutWithExercisesAndSetsCall s wid db).fetched = none ∧
      (getWorkoutWithExercisesAndSetsCall s wid db).result = .error .Unauthorized) := by
  refine ⟨authClient_error_iff, ?_, ?_, ?_⟩
  · intro e he
    cases s with
    | none =>
        simp [authClient] at he
        exact he.symm
    | some v =>
        by_cases hv : v = "" <;> simp [authClient, hv] at he
        exact he.symm
  · intro hs hu
    subst hs
    exact authClient_ok hu
  · intro hno
    have herr : authClient s = .error .Unauthorized := authClient_error_iff.mpr hno
    refine ⟨?_, ?_, ?_⟩
    · simp [getWorkoutsCall, herr]
    · simp [getWorkoutWithExercisesAndSetsCall, herr]
    · simp [getWorkoutWithExercisesAndSetsCall, herr]

/-- C7 witness at concrete data: with no session identity, both helpers
fail with `Unauthorized` and touch no store. -/
theorem identity_gate_fails_closed_witness :
    getWorkoutsCall none none sampleDB = (false, .error .Unauthorized) ∧
    (getWorkoutWithExercisesAndSetsCall none "w1" sampleDB).fetched = none ∧
    (getWorkoutWithExercisesAndSetsCall none "w1" sampleDB).result =
      .error .Unauthorized ∧
    authClient (some "alice") = .ok "alice" :=
  ⟨((identity_gate_fails_closed none "alice" none "w1" sampleDB).2.2.2
      (Or.inl rfl)).1,
   ((identity_gate_fails_closed none "alice" none "w1" sampleDB).2.2.2
      (Or.inl rfl)).2.1,
   ((identity_gate_fails_closed none "alice" none "w1" sampleDB).2.2.2
      (Or.inl rfl)).2.2,
   (identity_gate_fails_closed (some "alice") "alice" none "w1"
      sampleDB).2.2.1 rfl (by decide)⟩

/-- C8: validation rejection on create.  With an empty name (or a
non-positive duration), `createWorkout` fails with `ValidationFailed`
naming the offending field — an error distinct from `StorageFailure` — the
store is left unchanged, and a subsequent `getWorkouts` sees exactly what
it saw before. -/
theorem validation_rejection (u : String) (input : CreateWorkoutInput)
    (newId : String) (db : DB) (f : Option DateFilter) (hu : u ≠ "")
    (hbad : input.name = "" ∨ ∃ d, input.durationMinutes = some d ∧ d ≤ 0) :
    (createWorkout (some u) input newId db).fst = db ∧
    (input.name = "" →
      (createWorkout (some u) input newId db).snd =
        .error (.ValidationFailed "name")) ∧
    (input.name ≠ "" →
      (createWorkout (some u) input newId db).snd =
        .error (.ValidationFailed "durationMinutes")) ∧
    (createWorkout (some u) input newId db).snd ≠ .error .StorageFailure ∧
    getWorkouts (some u) f ((createWorkout (some u) input newId db).fst) =
      getWorkouts (some u) f db := by
  by_cases hname : input.name = ""
  · simp [createWorkout, authClient_ok hu, hname]
  · rcases hbad with h | ⟨d, hd, hdle⟩
    · exact absurd h hname
    · simp [createWorkout, authClient_ok hu, hname, hd, hdle]

/-- C8 witness at concrete data: creating a workout with an empty name
fails with `ValidationFailed "name"` and inserts nothing. -/
theorem validation_rejection_witness :
    (createWorkout (some "alice") ⟨"", none, 5, none⟩ "w9" sampleDB).fst =
      sampleDB ∧
    (createWorkout (some "alice") ⟨"", none, 5, none⟩ "w9" sampleDB).snd =
      .error (.ValidationFailed "name") ∧
    (createWorkout (some "alice") ⟨"", none, 5, none⟩ "w9" sampleDB).snd ≠
      .error .StorageFailure ∧
    getWorkouts (some "alice") none
        ((createWorkout (some "alice") ⟨"", none, 5, none⟩ "w9" sampleDB).fst) =
      getWorkouts (some "alice") none sampleDB :=
  ⟨(validation_rejection "alice" ⟨"", none, 5, none⟩ "w9" sampleDB none
      (by decide) (Or.inl rfl)).1,
   (validation_rejection "alice" ⟨"", none, 5, none⟩ "w9" sampleDB none
      (by decide) (Or.inl rfl)).2.1 rfl,
   (validation_rejection "alice" ⟨"", none, 5, none⟩ "w9" sampleDB none
      (by decide) (Or.inl rfl)).2.2.2.1,
   (validation_rejection "alice" ⟨"", none, 5, none⟩ "w9" sampleDB none
      (by decide) (Or.inl rfl)).2.2.2.2⟩

/-- C9: one-sided date filters.  With only a start bound the query applies
only `date >= startDate`; with only an end bound only `date < endDate`;
with no filter (or an empty filter object) no date condition — the
ownership condition is kept in every case. -/
theorem one_sided_date_filters (u : String) (s e : Int) (db : DB)
    (w : Workout) (hu : u ≠ "") :
    (w ∈ getWorkoutsResult u (some ⟨some s, none⟩) db ↔
      w ∈ db.workouts ∧ w.userId = u ∧ s ≤ w.date) ∧
    (w ∈ getWorkoutsResult u (some ⟨none, some e⟩) db ↔
      w ∈ db.workouts ∧ w.userId = u ∧ w.date < e) ∧
    (w ∈ getWorkoutsResult u none db ↔ w ∈ db.workouts ∧ w.userId = u) ∧
    (w ∈ getWorkoutsResult u (some ⟨none, none⟩) db ↔
      w ∈ db.workouts ∧ w.userId = u) ∧
    getWorkouts (some u) (some ⟨some s, none⟩) db =
      .ok (getWorkoutsResult u (some ⟨some s, none⟩) db) := by
  refine ⟨?_, ?_, ?_, ?_, getWorkouts_ok hu _ db⟩
  · rw [mem_getWorkoutsResult,
      workoutMatches_start_only (f := some ⟨some s, none⟩) rfl rfl]
  · rw [mem_getWorkoutsResult,
      workoutMatches_end_only (f := some ⟨none, some e⟩) rfl rfl]
  · rw [mem_getWorkoutsResult, workoutMatches_none_none (f := none) rfl rfl]
  · rw [mem_getWorkoutsResult,
      workoutMatches_none_none (f := some ⟨none, none⟩) rfl rfl]

/-- C9 witness at concrete data: membership characterizations evaluated
for Alice's workout. -/
theorem one_sided_date_filters_witness :
    (aliceWorkout ∈ getWorkoutsResult "alice" (some ⟨some 0, none⟩) sampleDB ↔
      aliceWorkout ∈ sampleDB.workouts ∧ aliceWorkout.userId = "alice" ∧
        (0 : Int) ≤ aliceWorkout.date) ∧
    (aliceWorkout ∈ getWorkoutsResult "alice" (some ⟨none, some 100⟩) sampleDB ↔
      aliceWorkout ∈ sampleDB.workouts ∧ aliceWorkout.userId = "alice" ∧
        aliceWorkout.date < (100 : Int)) ∧
    (aliceWorkout ∈ getWorkoutsResult "alice" none sampleDB ↔
      aliceWorkout ∈ sampleDB.workouts ∧ aliceWorkout.userId = "alice") :=
  ⟨(one_sided_date_filters "alice" 0 100 sampleDB aliceWorkout (by decide)).1,
   (one_sided_date_filters "alice" 0 100 sampleDB aliceWorkout (by decide)).2.1,
   (one_sided_date_filters "alice" 0 100 sampleDB aliceWorkout (by decide)).2.2.1⟩

/-- C10: the store read of the detail helper is identity-independent.  The
query is filtered only by workout id, so two different identities fetch
the same row with all its exercises and sets; ownership is enforced only
by the post-fetch check, which throws `Forbidden` after the non-owner's
data has already been read from the store. -/
theorem detail_fetch_identity_independent (u1 u2 wid : String) (db : DB)
    (W : Workout) (hu1 : u1 ≠ "") (hu2 : u2 ≠ "")
    (hnd : db.WorkoutIdsNodup) (hW : W ∈ db.workouts)
    (hown : W.userId ≠ u1) :
    (getWorkoutWithExercisesAndSetsCall (some u1) wid db).fetched =
      (getWorkoutWithExercisesAndSetsCall (some u2) wid db).fetched ∧
    (getWorkoutWithExercisesAndSetsCall (some u1) wid db).fetched =
      some (fetchWorkoutWithExercisesAndSets wid db) ∧
    (getWorkoutWithExercisesAndSetsCall (some u1) W.id db).fetched =
      some (some (detailOf db W)) ∧
    (getWorkoutWithExercisesAndSetsCall (some u1) W.id db).result =
      .error .Forbidden := by
  refine ⟨?_, call_fetched wid db hu1, ?_, ?_⟩
  · rw [call_fetched wid db hu1, call_fetched wid db hu2]
  · rw [call_forbidden hu1 hnd hW hown]
  · rw [call_forbidden hu1 hnd hW hown]

/-- C10 witness at concrete data: Bob's call fetches Alice's workout with
its exercises and sets, then fails with `Forbidden`. -/
theorem detail_fetch_identity_independent_witness :
    (getWorkoutWithExercisesAndSetsCall (some "bob") "w1" sampleDB).fetched =
      (getWorkoutWithExercisesAndSetsCall (some "alice") "w1" sampleDB).fetched ∧
    (getWorkoutWithExercisesAndSetsCall (some "bob") aliceWorkout.id
        sampleDB).fetched = some (some (detailOf sampleDB aliceWorkout)) ∧
    (getWorkoutWithExercisesAndSetsCall (some "bob") aliceWorkout.id
        sampleDB).result = .error .Forbidden :=
  ⟨(detail_fetch_identity_independent "bob" "alice" "w1" sampleDB
      aliceWorkout (by decide) (by decide) (by decide) (by decide)
      (by decide)).1,
   (detail_fetch_identity_independent "bob" "alice" "w1" sampleDB
      aliceWorkout (by decide) (by decide) (by decide) (by decide)
      (by decide)).2.2.1,
   (detail_fetch_identity_independent "bob" "alice" "w1" sampleDB
      aliceWorkout (by decide) (by decide) (by decide) (by decide)
      (by decide)).2.2.2⟩

end LiftingDiary
